import Mathlib

/-!
Shallow embedding of src/src-tauri/src/main.rs of local-chess-analyzer.

The program is startup glue: it resolves a port and a data directory from
the process environment, assembles a child-process environment map, picks a
platform-specific sidecar executable name, issues one spawn request on a
background task, and emits one readiness event to the main UI window.

Modelling conventions:
- a process environment is a partial map from variable names to string
  values (Rust's `env::var` succeeds exactly when the variable is set);
- OS path data is a sequence of units, each either a Unicode character or
  a non-Unicode unit, so that `to_string_lossy` is expressible;
- fallible external lookups (`app_data_dir`, `home_dir`) are `Option`
  inputs, and a Rust panic (`unwrap`, `expect`) is an `Except.error`
  carrying the diagnostic message;
- the async sidecar task is a pure function of the outcomes of its two
  external calls (`new_sidecar` and `spawn`), returning a record of what
  the task did: whether it panicked, each spawn result in order, what it
  logged and what it surfaced to the user.
-/

set_option autoImplicit false

namespace LCA

/-- A process environment: variable name to value, `none` when unset. -/
def Env : Type := String → Option String

/-- One unit of an OS string: a Unicode character, or a unit that is not
valid Unicode (Rust `OsStr` data need not be UTF-8). -/
inductive OsUnit where
  | valid (c : Char)
  | invalid
  deriving DecidableEq, Repr

/-- An OS path, as the raw sequence of its units. -/
abbrev OsPath : Type := List OsUnit

/-- The Unicode replacement character U+FFFD. -/
def replacementChar : Char := Char.ofNat 0xFFFD

/-- How one unit renders under lossy conversion: a non-Unicode unit becomes
the replacement character. -/
def lossyUnit : OsUnit → Char
  | OsUnit.valid c => c
  | OsUnit.invalid => replacementChar

/-- `Path::to_string_lossy`: valid units verbatim, non-Unicode units
replaced by U+FFFD. -/
def toStringLossy (p : OsPath) : String :=
  String.mk (p.map lossyUnit)

/-- The path separator unit. -/
def sepUnit : OsUnit := OsUnit.valid '/'

/-- `PathBuf::join` with a plain (relative, Unicode) component: push a
separator unless the path is empty or already ends in one, then the
component's characters. -/
def pathJoin (p : OsPath) (c : String) : OsPath :=
  if p = [] then c.data.map OsUnit.valid
  else if p.getLast? = some sepUnit then p ++ c.data.map OsUnit.valid
  else p ++ sepUnit :: c.data.map OsUnit.valid

/-- src/src-tauri/src/main.rs line 16:
`env::var("PORT").unwrap_or_else(|_| "42069".to_string())`. -/
def resolvePort (penv : Env) : String :=
  (penv "PORT").getD "42069"

/-- src/src-tauri/src/main.rs lines 20-23:
`app_handle.path().app_data_dir().unwrap_or_else(|_| app_handle.path().home_dir().unwrap())`.
Both lookups failing is a panic of the setup closure. -/
def appDataDirOrHome (appData home : Option OsPath) : Except String OsPath :=
  match appData with
  | some p => Except.ok p
  | none =>
    match home with
    | some p => Except.ok p
    | none => Except.error "called Result::unwrap on an Err value"

/-- The default data path built on src/src-tauri/src/main.rs line 25:
`base.join("LocalChessAnalyzer").join("data")`. -/
def defaultDataPath (base : OsPath) : OsPath :=
  pathJoin (pathJoin base "LocalChessAnalyzer") "data"

/-- src/src-tauri/src/main.rs lines 24-25, given the already-resolved base
directory: `env::var("DATA_DIR").unwrap_or_else(|_| base.join("LocalChessAnalyzer").join("data").to_string_lossy().to_string())`. -/
def resolveDataDir (penv : Env) (base : OsPath) : String :=
  (penv "DATA_DIR").getD (toStringLossy (defaultDataPath base))

/-- src/src-tauri/src/main.rs lines 28-31: the per-target sidecar
executable name (`cfg(target_os = "windows")`). -/
def binName (isWindows : Bool) : String :=
  if isWindows then "lca-backend.exe" else "lca-backend"

/-- `HashMap::insert` on a map modelled as a partial function. -/
def hmInsert (m : String → Option String) (k v : String) : String → Option String :=
  fun q => if q = k then some v else m q

/-- src/src-tauri/src/main.rs lines 33-40: the child-process environment.
`PORT` and `DATA_DIR` are always inserted; `STOCKFISH_PATH` is inserted
exactly when `env::var("STOCKFISH_PATH")` succeeded in the parent. -/
def mkEnvs (port data_dir : String) (parentStockfish : Option String) :
    String → Option String :=
  let m0 : String → Option String := fun _ => none
  let m1 := hmInsert m0 "PORT" port
  let m2 := hmInsert m1 "DATA_DIR" data_dir
  match parentStockfish with
  | some sf => hmInsert m2 "STOCKFISH_PATH" sf
  | none => m2

/-- What the background sidecar task did. -/
inductive TaskOutcome where
  | panicked (msg : String)
  | completed (spawnResults : List (Except String Unit)) (logs : List String)
      (surfacedError : Option String)
  deriving Repr

/-- src/src-tauri/src/main.rs lines 42-47: the async task. `new_sidecar`
failing hits `.expect("failed to setup sidecar")`, a panic before any
spawn; otherwise exactly one spawn is issued and its result is discarded
(`let _ = ...`): nothing logged, nothing surfaced. -/
def sidecarTask (newSidecarOk spawnOk : Bool) : TaskOutcome :=
  if newSidecarOk then
    TaskOutcome.completed [if spawnOk then Except.ok () else Except.error "spawn failed"] [] none
  else
    TaskOutcome.panicked "failed to setup sidecar"

/-- One event emitted to a UI window. -/
structure Emitted where
  window : String
  event : String
  payload : String
  deriving DecidableEq, Repr

/-- `app.get_window(label)`: the window handle when a window with that
label exists. -/
def getWindow (windows : List String) (label : String) : Option String :=
  if label ∈ windows then some label else none

/-- src/src-tauri/src/main.rs lines 50-52:
`app.get_window("main").map(|w| { let _ = w.emit("backend-ready", port); })`. -/
def notifyUI (windows : List String) (port : String) : List Emitted :=
  match getWindow windows "main" with
  | some w => [{ window := w, event := "backend-ready", payload := port }]
  | none => []

/-- Everything the setup closure produced when it ran to completion. -/
structure SetupResult where
  port : String
  data_dir : String
  bin : String
  envs : String → Option String
  task : TaskOutcome
  emitted : List Emitted

/-- src/src-tauri/src/main.rs lines 14-54: the setup closure. Inputs are
the parent environment, the compile-time target family, the outcomes of
the external lookups (`app_data_dir`, `home_dir`), the outcomes of the two
sidecar calls, and the set of existing window labels. An `Except.error` is
a panic of the closure (which runs on the main thread and aborts startup);
the async task's own panic is recorded inside `TaskOutcome`. -/
def setup (penv : Env) (isWindows : Bool) (appData home : Option OsPath)
    (newSidecarOk spawnOk : Bool) (windows : List String) :
    Except String SetupResult :=
  let port := resolvePort penv
  match appDataDirOrHome appData home with
  | Except.error e => Except.error e
  | Except.ok base =>
    let data_dir := resolveDataDir penv base
    let bin := binName isWindows
    let envs := mkEnvs port data_dir (penv "STOCKFISH_PATH")
    let task := sidecarTask newSidecarOk spawnOk
    let emitted := notifyUI windows port
    Except.ok { port := port, data_dir := data_dir, bin := bin,
                envs := envs, task := task, emitted := emitted }

/-- src/src-tauri/src/main.rs lines 7-10: the `ping` command body. -/
def ping : String := "pong"

/-- src/src-tauri/src/main.rs line 57, `generate_handler![ping]`: the
command registry maps the name of each registered command to its result. -/
def invokeHandler (cmd : String) : Option String :=
  if cmd = "ping" then some ping else none

/-- A concrete environment with `PORT` set to the empty string and nothing
else set. -/
def envPortEmpty : Env :=
  fun k => if k = "PORT" then some "" else none

/-- A concrete environment with `PORT` set to `8080` and nothing else. -/
def envPort8080 : Env :=
  fun k => if k = "PORT" then some "8080" else none

/-- The empty environment. -/
def envNone : Env := fun _ => none

/-- A concrete environment with `PORT`, `DATA_DIR` and `STOCKFISH_PATH`
all set. -/
def penvFull : Env :=
  fun k =>
    if k = "PORT" then some "9999"
    else if k = "DATA_DIR" then some "/data/x"
    else if k = "STOCKFISH_PATH" then some "/sf" else none

/-- A path distinct from `p` whose lossy rendering coincides with that of
`p`: every non-Unicode unit is replaced by a genuine replacement-character
unit. -/
def lossyProxy (p : OsPath) : OsPath :=
  p.map (fun u => OsUnit.valid (lossyUnit u))

/-- A concrete base path containing a non-Unicode unit. -/
def basePathX : OsPath := [OsUnit.valid 'h', OsUnit.invalid]

/-- The setup result for the empty environment, a non-Windows target, an
empty app-data path, both sidecar calls succeeding, and a main window. -/
def rA : SetupResult :=
  { port := resolvePort envNone,
    data_dir := resolveDataDir envNone [],
    bin := binName false,
    envs := mkEnvs (resolvePort envNone) (resolveDataDir envNone []) (envNone "STOCKFISH_PATH"),
    task := sidecarTask true true,
    emitted := notifyUI ["main"] (resolvePort envNone) }

/-- As `rA`, but on a Windows-family target. -/
def rWin : SetupResult :=
  { port := resolvePort envNone,
    data_dir := resolveDataDir envNone [],
    bin := binName true,
    envs := mkEnvs (resolvePort envNone) (resolveDataDir envNone []) (envNone "STOCKFISH_PATH"),
    task := sidecarTask true true,
    emitted := notifyUI ["main"] (resolvePort envNone) }

/-- As `rA`, but for the fully populated environment `penvFull`. -/
def rFull : SetupResult :=
  { port := resolvePort penvFull,
    data_dir := resolveDataDir penvFull [],
    bin := binName false,
    envs := mkEnvs (resolvePort penvFull) (resolveDataDir penvFull []) (penvFull "STOCKFISH_PATH"),
    task := sidecarTask true true,
    emitted := notifyUI ["main"] (resolvePort penvFull) }

/-- As `rA`, but with `new_sidecar` failing. -/
def rSidecarFail : SetupResult :=
  { port := resolvePort envNone,
    data_dir := resolveDataDir envNone [],
    bin := binName false,
    envs := mkEnvs (resolvePort envNone) (resolveDataDir envNone []) (envNone "STOCKFISH_PATH"),
    task := sidecarTask false true,
    emitted := notifyUI ["main"] (resolvePort envNone) }

/-- As `rA`, but with the spawn call itself failing. -/
def rSpawnFail : SetupResult :=
  { port := resolvePort envNone,
    data_dir := resolveDataDir envNone [],
    bin := binName false,
    envs := mkEnvs (resolvePort envNone) (resolveDataDir envNone []) (envNone "STOCKFISH_PATH"),
    task := sidecarTask true false,
    emitted := notifyUI ["main"] (resolvePort envNone) }

/-- As `rA`, but over the base path `basePathX`, which contains a
non-Unicode unit. -/
def rX : SetupResult :=
  { port := resolvePort envNone,
    data_dir := resolveDataDir envNone basePathX,
    bin := binName false,
    envs := mkEnvs (resolvePort envNone) (resolveDataDir envNone basePathX) (envNone "STOCKFISH_PATH"),
    task := sidecarTask true true,
    emitted := notifyUI ["main"] (resolvePort envNone) }

end LCA

namespace LCA

/-- C1 counterexample: in an environment where `PORT` is set and empty,
the resolved port is the empty string, not the literal "42069" the claim
requires for the set-but-empty case. -/
theorem port_empty_counterexample :
    envPortEmpty "PORT" = some "" ∧ resolvePort envPortEmpty ≠ "42069" := by
  constructor
  · rfl
  · decide

/-- C1 (amended): for every process environment, if `PORT` is set the
resolved port string equals its value (even when that value is empty);
if `PORT` is unset the resolved port string is the literal "42069". -/
theorem resolvePort_spec (penv : Env) :
    (∀ v, penv "PORT" = some v → resolvePort penv = v) ∧
    (penv "PORT" = none → resolvePort penv = "42069") := by
  constructor
  · intro v hv
    simp [resolvePort, hv]
  · intro hv
    simp [resolvePort, hv]

/-- C1 witness: with `PORT=8080` the port resolves to "8080"; with `PORT`
unset it resolves to "42069". -/
theorem resolvePort_spec_witness :
    resolvePort envPort8080 = "8080" ∧ resolvePort envNone = "42069" :=
  ⟨(resolvePort_spec envPort8080).1 "8080" rfl,
   (resolvePort_spec envNone).2 rfl⟩

/-- C4: the registry maps the name "ping" to the result "pong", and to
nothing else under any other name; the command has no failure case. -/
theorem ping_spec :
    invokeHandler "ping" = some "pong" ∧ ping = "pong" :=
  ⟨rfl, rfl⟩

/-- C5: for any startup that completes, the sidecar executable name is
"lca-backend.exe" when the target is in the Windows family and
"lca-backend" otherwise. -/
theorem binName_spec (penv : Env) (isWindows : Bool) (appData home : Option OsPath)
    (newSidecarOk spawnOk : Bool) (windows : List String) (r : SetupResult)
    (h : setup penv isWindows appData home newSidecarOk spawnOk windows = Except.ok r) :
    r.bin = if isWindows then "lca-backend.exe" else "lca-backend" := by
  unfold setup at h
  cases hres : appDataDirOrHome appData home with
  | error e => rw [hres] at h; exact absurd h (by simp)
  | ok base =>
    rw [hres] at h
    simp only [Except.ok.injEq] at h
    subst h
    rfl

/-- C5 witness: at a concrete completed startup, the name is
"lca-backend.exe" on Windows and "lca-backend" elsewhere. -/
theorem binName_spec_witness :
    rWin.bin = "lca-backend.exe" ∧ rA.bin = "lca-backend" := by
  constructor
  · have h := binName_spec envNone true (some []) none true true ["main"] rWin rfl
    simpa using h
  · have h := binName_spec envNone false (some []) none true true ["main"] rA rfl
    simpa using h

/-- Helper: when the base-directory lookup pipeline succeeds, the setup
closure completes with the record assembled from its parts. -/
theorem setup_ok (penv : Env) (isWindows : Bool) (appData home : Option OsPath)
    (newSidecarOk spawnOk : Bool) (windows : List String) (base : OsPath)
    (hbase : appDataDirOrHome appData home = Except.ok base) :
    setup penv isWindows appData home newSidecarOk spawnOk windows =
      Except.ok { port := resolvePort penv,
                  data_dir := resolveDataDir penv base,
                  bin := binName isWindows,
                  envs := mkEnvs (resolvePort penv) (resolveDataDir penv base)
                    (penv "STOCKFISH_PATH"),
                  task := sidecarTask newSidecarOk spawnOk,
                  emitted := notifyUI windows (resolvePort penv) } := by
  unfold setup
  rw [hbase]

/-- Helper: the assembled child environment at each of its keys. -/
theorem mkEnvs_lookup (port data_dir : String) (sf : Option String) :
    mkEnvs port data_dir sf "PORT" = some port ∧
    mkEnvs port data_dir sf "DATA_DIR" = some data_dir ∧
    mkEnvs port data_dir sf "STOCKFISH_PATH" = sf ∧
    ∀ k, k ≠ "PORT" → k ≠ "DATA_DIR" → k ≠ "STOCKFISH_PATH" →
      mkEnvs port data_dir sf k = none := by
  cases sf with
  | none =>
    refine ⟨by simp [mkEnvs, hmInsert], by simp [mkEnvs, hmInsert],
      by simp [mkEnvs, hmInsert], ?_⟩
    intro k h1 h2 h3
    simp [mkEnvs, hmInsert, h1, h2]
  | some v =>
    refine ⟨by simp [mkEnvs, hmInsert], by simp [mkEnvs, hmInsert],
      by simp [mkEnvs, hmInsert], ?_⟩
    intro k h1 h2 h3
    simp [mkEnvs, hmInsert, h1, h2, h3]

/-- C2: for every resolved port and data_dir and every parent environment,
the assembled child environment maps PORT to the port, DATA_DIR to the
data_dir, agrees with the parent at STOCKFISH_PATH (so it contains that
key exactly when the parent sets it, with the same value), and maps every
other key to nothing. -/
theorem mkEnvs_spec (port data_dir : String) (penv : Env) (k : String) :
    mkEnvs port data_dir (penv "STOCKFISH_PATH") "PORT" = some port ∧
    mkEnvs port data_dir (penv "STOCKFISH_PATH") "DATA_DIR" = some data_dir ∧
    mkEnvs port data_dir (penv "STOCKFISH_PATH") "STOCKFISH_PATH" = penv "STOCKFISH_PATH" ∧
    (k ≠ "PORT" → k ≠ "DATA_DIR" → k ≠ "STOCKFISH_PATH" →
      mkEnvs port data_dir (penv "STOCKFISH_PATH") k = none) := by
  obtain ⟨h1, h2, h3, h4⟩ := mkEnvs_lookup port data_dir (penv "STOCKFISH_PATH")
  exact ⟨h1, h2, h3, h4 k⟩

/-- C2 witness: at port 9999, data_dir /data/x and the fully populated
parent environment, the three keys carry the expected values and the
unrelated key HOME is absent. -/
theorem mkEnvs_spec_witness :
    mkEnvs "9999" "/data/x" (penvFull "STOCKFISH_PATH") "PORT" = some "9999" ∧
    mkEnvs "9999" "/data/x" (penvFull "STOCKFISH_PATH") "DATA_DIR" = some "/data/x" ∧
    mkEnvs "9999" "/data/x" (penvFull "STOCKFISH_PATH") "STOCKFISH_PATH" = some "/sf" ∧
    mkEnvs "9999" "/data/x" (penvFull "STOCKFISH_PATH") "HOME" = none := by
  obtain ⟨h1, h2, h3, h4⟩ := mkEnvs_spec "9999" "/data/x" penvFull "HOME"
  exact ⟨h1, h2, by rw [h3]; rfl, h4 (by decide) (by decide) (by decide)⟩

/-- C3: for every startup that completes with base directory `base`
resolved by the app-data-or-home pipeline, the data_dir is the value of
DATA_DIR verbatim when that variable is set, and otherwise the lossy text
of `base` joined with LocalChessAnalyzer and data. -/
theorem resolveDataDir_spec (penv : Env) (isWindows : Bool) (appData home : Option OsPath)
    (newSidecarOk spawnOk : Bool) (windows : List String) (base : OsPath) (r : SetupResult)
    (hbase : appDataDirOrHome appData home = Except.ok base)
    (h : setup penv isWindows appData home newSidecarOk spawnOk windows = Except.ok r) :
    (∀ v, penv "DATA_DIR" = some v → r.data_dir = v) ∧
    (penv "DATA_DIR" = none →
      r.data_dir = toStringLossy (defaultDataPath base)) := by
  rw [setup_ok penv isWindows appData home newSidecarOk spawnOk windows base hbase] at h
  simp only [Except.ok.injEq] at h
  subst h
  constructor
  · intro v hv
    simp [resolveDataDir, hv]
  · intro hv
    simp [resolveDataDir, hv]

/-- C3 witness: with DATA_DIR=/data/x the data_dir is exactly /data/x;
with DATA_DIR unset it is the lossy text of the joined default path. -/
theorem resolveDataDir_spec_witness :
    rFull.data_dir = "/data/x" ∧
    rA.data_dir = toStringLossy (defaultDataPath []) :=
  ⟨(resolveDataDir_spec penvFull false (some []) none true true ["main"] [] rFull
      rfl rfl).1 "/data/x" rfl,
   (resolveDataDir_spec envNone false (some []) none true true ["main"] [] rA
      rfl rfl).2 rfl⟩

/-- C6: whenever a window labelled main exists, a completed startup emits
exactly one event, named backend-ready, to that window, and its payload is
the resolved port, the same string the child environment carries under
PORT. -/
theorem backendReady_emit_spec (penv : Env) (isWindows : Bool)
    (appData home : Option OsPath) (newSidecarOk spawnOk : Bool)
    (windows : List String) (r : SetupResult)
    (h : setup penv isWindows appData home newSidecarOk spawnOk windows = Except.ok r)
    (hw : "main" ∈ windows) :
    r.emitted = [{ window := "main", event := "backend-ready", payload := r.port }] ∧
    r.port = resolvePort penv ∧
    r.envs "PORT" = some r.port := by
  cases hres : appDataDirOrHome appData home with
  | error e =>
    unfold setup at h
    rw [hres] at h
    exact absurd h (by simp)
  | ok base =>
    rw [setup_ok penv isWindows appData home newSidecarOk spawnOk windows base hres] at h
    simp only [Except.ok.injEq] at h
    subst h
    refine ⟨?_, rfl, (mkEnvs_lookup _ _ _).1⟩
    simp [notifyUI, getWindow, hw]

/-- C6 witness: in the concrete startup with a main window, exactly one
backend-ready event is emitted, carrying the resolved port 42069, which is
also the PORT entry of the child environment. -/
theorem backendReady_emit_spec_witness :
    rA.emitted = [{ window := "main", event := "backend-ready", payload := rA.port }] ∧
    rA.port = resolvePort envNone ∧
    rA.envs "PORT" = some rA.port :=
  backendReady_emit_spec envNone false (some []) none true true ["main"] rA rfl
    (by decide)

/-- C7: when no window labelled main exists, a startup whose base lookup
succeeded still completes without error, emits nothing, and yields the
same result as the same startup with a main window except for the emitted
event. -/
theorem notify_missing_spec (penv : Env) (isWindows : Bool)
    (appData home : Option OsPath) (newSidecarOk spawnOk : Bool)
    (windows : List String) (base : OsPath) (r : SetupResult)
    (hbase : appDataDirOrHome appData home = Except.ok base)
    (hw : "main" ∉ windows)
    (h : setup penv isWindows appData home newSidecarOk spawnOk ["main"] = Except.ok r) :
    setup penv isWindows appData home newSidecarOk spawnOk windows =
      Except.ok { r with emitted := [] } := by
  rw [setup_ok penv isWindows appData home newSidecarOk spawnOk ["main"] base hbase] at h
  simp only [Except.ok.injEq] at h
  subst h
  rw [setup_ok penv isWindows appData home newSidecarOk spawnOk windows base hbase]
  simp [notifyUI, getWindow, hw]

/-- C7 witness: with no windows at all, the concrete startup completes
with the same result as the main-window startup but with no emission. -/
theorem notify_missing_spec_witness :
    setup envNone false (some []) none true true [] =
      Except.ok { rA with emitted := [] } :=
  notify_missing_spec envNone false (some []) none true true [] [] rA rfl
    (by simp) rfl

/-- C8: when new_sidecar fails, the background task aborts at once with
the diagnostic failed to setup sidecar, before any spawn attempt and with
no retry; when new_sidecar succeeds and the spawn itself fails, the task
records exactly one spawn attempt whose error is discarded, logging
nothing and surfacing nothing, and the application continues (setup still
completes in both scenarios). -/
theorem sidecar_error_spec (penv : Env) (isWindows : Bool)
    (appData home : Option OsPath) (spawnOk : Bool) (windows : List String)
    (rFail rSp : SetupResult)
    (hFail : setup penv isWindows appData home false spawnOk windows = Except.ok rFail)
    (hSp : setup penv isWindows appData home true false windows = Except.ok rSp) :
    rFail.task = TaskOutcome.panicked "failed to setup sidecar" ∧
    rSp.task = TaskOutcome.completed [Except.error "spawn failed"] [] none := by
  cases hres : appDataDirOrHome appData home with
  | error e =>
    unfold setup at hFail
    rw [hres] at hFail
    exact absurd hFail (by simp)
  | ok base =>
    rw [setup_ok penv isWindows appData home false spawnOk windows base hres] at hFail
    rw [setup_ok penv isWindows appData home true false windows base hres] at hSp
    simp only [Except.ok.injEq] at hFail hSp
    subst hFail
    subst hSp
    exact ⟨rfl, rfl⟩

/-- C8 witness: in the concrete startups, the failed-preparation task
panicked with the diagnostic and the failed-spawn task completed with one
discarded spawn error, no logs and nothing surfaced. -/
theorem sidecar_error_spec_witness :
    rSidecarFail.task = TaskOutcome.panicked "failed to setup sidecar" ∧
    rSpawnFail.task = TaskOutcome.completed [Except.error "spawn failed"] [] none :=
  sidecar_error_spec envNone false (some []) none true ["main"] rSidecarFail
    rSpawnFail rfl rfl

/-- C9: with DATA_DIR unset, if both the app-data lookup and the home
lookup fail, the setup closure terminates with the unwrap panic rather
than producing any result. -/
theorem data_dir_fatal_spec (penv : Env) (isWindows newSidecarOk spawnOk : Bool)
    (windows : List String) ( _hd : penv "DATA_DIR" = none) :
    setup penv isWindows none none newSidecarOk spawnOk windows =
      Except.error "called Result::unwrap on an Err value" := by
  unfold setup appDataDirOrHome
  rfl

/-- C9 witness: the empty environment with both lookups failing aborts
setup with the unwrap panic. -/
theorem data_dir_fatal_spec_witness :
    setup envNone false none none true true [] =
      Except.error "called Result::unwrap on an Err value" :=
  data_dir_fatal_spec envNone false true true [] rfl

/-- Helper: joining a component preserves membership of a non-Unicode
unit. -/
theorem invalid_mem_pathJoin (p : OsPath) (c : String) (h : OsUnit.invalid ∈ p) :
    OsUnit.invalid ∈ pathJoin p c := by
  unfold pathJoin
  split
  · next heq => subst heq; simp at h
  · split
    · exact List.mem_append_left _ h
    · exact List.mem_append_left _ h

/-- Helper: a non-Unicode unit renders as the replacement character in the
lossy text. -/
theorem replacement_mem_toStringLossy (p : OsPath) (h : OsUnit.invalid ∈ p) :
    replacementChar ∈ (toStringLossy p).data :=
  List.mem_map.mpr ⟨OsUnit.invalid, h, rfl⟩

/-- Helper: the lossy proxy of a path has the same lossy text. -/
theorem toStringLossy_lossyProxy (p : OsPath) :
    toStringLossy (lossyProxy p) = toStringLossy p := by
  unfold toStringLossy lossyProxy
  rw [List.map_map]
  have hfun : lossyUnit ∘ (fun u => OsUnit.valid (lossyUnit u)) = lossyUnit := by
    funext u
    cases u <;> rfl
  rw [hfun]

/-- Helper: the lossy proxy of a path containing a non-Unicode unit is a
different path. -/
theorem lossyProxy_ne (p : OsPath) (h : OsUnit.invalid ∈ p) : lossyProxy p ≠ p := by
  intro he
  have hmem : OsUnit.invalid ∈ lossyProxy p := by rw [he]; exact h
  rcases List.mem_map.mp hmem with ⟨u, _, hu⟩
  exact OsUnit.noConfusion hu

/-- C10: with DATA_DIR unset and a base path containing a non-Unicode
unit, the child environment's DATA_DIR entry is the lossy text of the
default path; that text contains the replacement character U+FFFD, and a
different path (the one with the non-Unicode units literally replaced) has
the very same text, so the string passed to the child need not name the
original filesystem path. -/
theorem lossy_default_spec (penv : Env) (isWindows : Bool)
    (appData home : Option OsPath) (newSidecarOk spawnOk : Bool)
    (windows : List String) (base : OsPath) (r : SetupResult)
    (hd : penv "DATA_DIR" = none)
    (hbase : appDataDirOrHome appData home = Except.ok base)
    (hinv : OsUnit.invalid ∈ base)
    (h : setup penv isWindows appData home newSidecarOk spawnOk windows = Except.ok r) :
    r.envs "DATA_DIR" = some (toStringLossy (defaultDataPath base)) ∧
    replacementChar ∈ (toStringLossy (defaultDataPath base)).data ∧
    lossyProxy (defaultDataPath base) ≠ defaultDataPath base ∧
    toStringLossy (lossyProxy (defaultDataPath base)) = toStringLossy (defaultDataPath base) := by
  have hji : OsUnit.invalid ∈ defaultDataPath base :=
    invalid_mem_pathJoin _ _ (invalid_mem_pathJoin _ _ hinv)
  rw [setup_ok penv isWindows appData home newSidecarOk spawnOk windows base hbase] at h
  simp only [Except.ok.injEq] at h
  subst h
  refine ⟨?_, replacement_mem_toStringLossy _ hji, lossyProxy_ne _ hji,
    toStringLossy_lossyProxy _⟩
  show mkEnvs (resolvePort penv) (resolveDataDir penv base) (penv "STOCKFISH_PATH")
      "DATA_DIR" = some (toStringLossy (defaultDataPath base))
  rw [(mkEnvs_lookup (resolvePort penv) (resolveDataDir penv base)
    (penv "STOCKFISH_PATH")).2.1]
  simp [resolveDataDir, hd]

/-- C10 witness: over the concrete base path with a non-Unicode unit, the
DATA_DIR entry is the lossy text, the replacement character occurs in it,
and the proxy path is distinct with the same text. -/
theorem lossy_default_spec_witness :
    rX.envs "DATA_DIR" = some (toStringLossy (defaultDataPath basePathX)) ∧
    replacementChar ∈ (toStringLossy (defaultDataPath basePathX)).data ∧
    lossyProxy (defaultDataPath basePathX) ≠ defaultDataPath basePathX ∧
    toStringLossy (lossyProxy (defaultDataPath basePathX)) =
      toStringLossy (defaultDataPath basePathX) :=
  lossy_default_spec envNone false (some basePathX) none true true ["main"]
    basePathX rX rfl rfl (by decide) rfl

end LCA
